import Mathlib

/-!
# MusicControl: the JNI bridge `MusicController.cpp`

A shallow embedding of `src/MusicController.cpp` and the properties of its
byte-to-text codec (`to_base64`), its session accessor (`get_session`) and its
JNI entry points.

* `uint8_t` values are natural numbers below 256; a store into a `uint8_t`
  slot reduces modulo 256.  `int64_t` and `jint` values are integers, reduced
  to their two's-complement range where the source converts or computes.
* `std::string` is `String`; `result += c` is `String.push`.
* The platform (WinRT session manager, session, snapshots) is a record of the
  answers a fake platform gives, every call being able to fail; an entry point
  is run to a result together with the trace of calls and log lines it made.
-/

namespace MusicControl

/-! ## Byte-to-text codec (`to_base64`, lines 43-79) -/

/-- The `static const std::string chars` of `to_base64`. -/
def chars : String :=
  "ABCDEFGHIJKLMNOPQRSTUVWXYZabcdefghijklmnopqrstuvwxyz0123456789+/"

/-- The expression `chars[n]`; `std::string::operator[]` at `size()` is the NUL character. -/
def charAt (n : Nat) : Char := chars.data.getD n (Char.ofNat 0)

/-- The local array `uint8_t buf3[3]`. -/
structure Buf3 where
  b0 : Nat
  b1 : Nat
  b2 : Nat
  deriving DecidableEq, Repr

/-- The local array `uint8_t buf4[4]`. -/
structure Buf4 where
  s0 : Nat
  s1 : Nat
  s2 : Nat
  s3 : Nat
  deriving DecidableEq, Repr

/-- The assignment `buf3[j] = v`. -/
def Buf3.set (b : Buf3) (j : Nat) (v : Nat) : Buf3 :=
  match j with
  | 0 => { b with b0 := v }
  | 1 => { b with b1 := v }
  | 2 => { b with b2 := v }
  | _ => b

/-- The read `buf4[j]`. -/
def Buf4.get (b : Buf4) (j : Nat) : Nat :=
  match j with
  | 0 => b.s0
  | 1 => b.s1
  | 2 => b.s2
  | _ => b.s3

/-- The value stored by `buf4[0] = (buf3[0] & 0xfc) >> 2`. -/
def pack0 (b : Buf3) : Nat := ((b.b0 &&& 0xfc) >>> 2) % 256

/-- The value stored by `buf4[1] = ((buf3[0] & 0x03) << 4) | ((buf3[1] & 0xf0) >> 4)`. -/
def pack1 (b : Buf3) : Nat := (((b.b0 &&& 0x03) <<< 4) ||| ((b.b1 &&& 0xf0) >>> 4)) % 256

/-- The value stored by `buf4[2] = ((buf3[1] & 0x0f) << 2) | ((buf3[2] & 0xc0) >> 6)`. -/
def pack2 (b : Buf3) : Nat := (((b.b1 &&& 0x0f) <<< 2) ||| ((b.b2 &&& 0xc0) >>> 6)) % 256

/-- The value stored by `buf4[3] = buf3[2] & 0x3f`. -/
def pack3 (b : Buf3) : Nat := (b.b2 &&& 0x3f) % 256

/-- The loop `for (j = 0; j < count; ++j) result += chars[buf4[j]]`. -/
def appendSymbols (buf4 : Buf4) (count : Nat) (result : String) : String :=
  (List.range count).foldl (fun r j => r.push (charAt (buf4.get j))) result

/-- The local variables of `to_base64`. -/
structure EncState where
  i : Nat
  buf3 : Buf3
  buf4 : Buf4
  result : String
  deriving DecidableEq, Repr

/-- One iteration of `for (uint8_t byte : data)` (lines 50-62). -/
def loopBody (st : EncState) (byte : UInt8) : EncState :=
  let buf3 := st.buf3.set st.i byte.toNat
  let i := st.i + 1
  if i = 3 then
    let buf4 : Buf4 := ⟨pack0 buf3, pack1 buf3, pack2 buf3, pack3 buf3⟩
    { i := 0, buf3 := buf3, buf4 := buf4, result := appendSymbols buf4 4 st.result }
  else
    { st with i := i, buf3 := buf3 }

/-- The code after the loop (lines 64-78): the partial group and its padding.
The loops over `j` from `i` up to 3 and `while (i++ < 3)` both run for the
indices `i, ..., 2`. -/
def finish (st : EncState) : String :=
  if st.i > 0 then
    let buf3 := (List.range' st.i (3 - st.i)).foldl (fun b j => b.set j 0) st.buf3
    let buf4 : Buf4 := { st.buf4 with s0 := pack0 buf3, s1 := pack1 buf3, s2 := pack2 buf3 }
    let result := appendSymbols buf4 (st.i + 1) st.result
    (List.range' st.i (3 - st.i)).foldl (fun r _ => r.push '=') result
  else
    st.result

/-- The state on entry to the loop: `i = 0`, `result` empty; the arrays are
uninitialised in the source and are never read before they are written. -/
def initState : EncState := ⟨0, ⟨0, 0, 0⟩, ⟨0, 0, 0, 0⟩, ""⟩

/-- The function `std::string to_base64(const std::vector<uint8_t>& data)`. -/
def to_base64 (data : List UInt8) : String :=
  finish (data.foldl loopBody initState)

/-! ### The standard encoding and a reference decoder (RFC 4648, section 4) -/

/-- Symbol of a six-bit value in the alphabet `A-Z a-z 0-9 + /`. -/
def stdSymbol (n : Nat) : Char :=
  if n < 26 then Char.ofNat (65 + n)
  else if n < 52 then Char.ofNat (97 + (n - 26))
  else if n < 62 then Char.ofNat (48 + (n - 52))
  else if n = 62 then Char.ofNat 43
  else Char.ofNat 47

/-- The four symbols of a group of three bytes, at the indices
`b0>>2`, `(b0&0x3)<<4 | b1>>4`, `(b1&0xf)<<2 | b2>>6`, `b2&0x3f`. -/
def stdGroup (b0 b1 b2 : Nat) : List Char :=
  [stdSymbol (b0 >>> 2),
   stdSymbol (((b0 &&& 0x3) <<< 4) ||| (b1 >>> 4)),
   stdSymbol (((b1 &&& 0xf) <<< 2) ||| (b2 >>> 6)),
   stdSymbol (b2 &&& 0x3f)]

/-- The standard base64 encoding in the words of the specification: four
symbols for each full group of three bytes; a final group of `k` bytes is
zero-padded, gives its first `k + 1` symbols and `3 - k` characters `=`. -/
def std_base64 : List UInt8 → List Char
  | [] => []
  | [b0] => (stdGroup b0.toNat 0 0).take 2 ++ List.replicate 2 (Char.ofNat 61)
  | [b0, b1] => (stdGroup b0.toNat b1.toNat 0).take 3 ++ List.replicate 1 (Char.ofNat 61)
  | b0 :: b1 :: b2 :: rest => stdGroup b0.toNat b1.toNat b2.toNat ++ std_base64 rest

/-- Six-bit value of a symbol of the alphabet, `none` for any other character. -/
def stdValue (c : Char) : Option Nat :=
  let n := c.toNat
  if 65 ≤ n ∧ n ≤ 90 then some (n - 65)
  else if 97 ≤ n ∧ n ≤ 122 then some (n - 97 + 26)
  else if 48 ≤ n ∧ n ≤ 57 then some (n - 48 + 52)
  else if n = 43 then some 62
  else if n = 47 then some 63
  else none

/-- Reference decoder for one block of four characters.  Padding is accepted
only in the last block, and the unused low bits of a padded block must be zero. -/
def decodeBlock (c0 c1 c2 c3 : Char) (last : Bool) : Option (List UInt8) :=
  if c3 = Char.ofNat 61 then
    if !last then none
    else if c2 = Char.ofNat 61 then
      match stdValue c0, stdValue c1 with
      | some v0, some v1 =>
        if v1 % 16 = 0 then some [UInt8.ofNat (v0 * 4 + v1 / 16)] else none
      | _, _ => none
    else
      match stdValue c0, stdValue c1, stdValue c2 with
      | some v0, some v1, some v2 =>
        if v2 % 4 = 0 then
          some [UInt8.ofNat (v0 * 4 + v1 / 16), UInt8.ofNat (v1 % 16 * 16 + v2 / 4)]
        else none
      | _, _, _ => none
  else
    match stdValue c0, stdValue c1, stdValue c2, stdValue c3 with
    | some v0, some v1, some v2, some v3 =>
      some [UInt8.ofNat (v0 * 4 + v1 / 16), UInt8.ofNat (v1 % 16 * 16 + v2 / 4),
            UInt8.ofNat (v2 % 4 * 64 + v3)]
    | _, _, _, _ => none

/-- Reference decoder on a list of characters: blocks of four, anything else is rejected. -/
def decodeChars : List Char → Option (List UInt8)
  | [] => some []
  | c0 :: c1 :: c2 :: c3 :: rest =>
    match decodeBlock c0 c1 c2 c3 rest.isEmpty, decodeChars rest with
    | some g, some t => some (g ++ t)
    | _, _ => none
  | _ => none

/-- A standard (strict) RFC 4648 base64 decoder. -/
def rfc4648_decode (s : String) : Option (List UInt8) := decodeChars s.data

/-! ## The platform, exceptions and the trace of a call -/

/-- Modelled from the spec: the calls made on the platform objects (session
manager, session, snapshots, thumbnail stream, data reader); they are declared
in the WinRT headers. -/
inductive Op
  | RequestAsync
  | GetCurrentSession
  | TryGetMediaPropertiesAsync
  | Title
  | AlbumTitle
  | Artist
  | Thumbnail
  | OpenReadAsync
  | GetInputStreamAt
  | DataReader
  | Size
  | LoadAsync (count : Nat)
  | ReadBytes (count : Nat)
  | GetTimelineProperties
  | Position
  | EndTime
  | LastUpdatedTime
  | GetPlaybackInfo
  | PlaybackStatus
  | TryPlayAsync
  | TryPauseAsync
  | TryChangePlaybackPositionAsync (position : Int)
  | TrySkipNextAsync
  | TrySkipPreviousAsync
  deriving DecidableEq, Repr

/-- Modelled from the spec: how a platform call can fail; the call itself
throws, or (for an asynchronous call) the operation ends in a status other
than `Completed`. -/
inductive Fault
  | throws
  | notCompleted
  deriving DecidableEq, Repr

/-- A C++ exception in flight: a `winrt::hresult_error`, or the
`std::runtime_error` that `await` creates. -/
inductive Failure
  | hresult_error
  | runtime_error (what : String)
  deriving DecidableEq, Repr

/-- What a call does that is visible outside it: a platform call, a line of
debug output, an invocation of the codec. -/
inductive Event
  | call (op : Op)
  | output (text : String)
  | codec (data : List UInt8)
  deriving DecidableEq, Repr

instance instDecidableEqExcept {ε α : Type} [DecidableEq ε] [DecidableEq α] :
    DecidableEq (Except ε α) := fun x y =>
  match x, y with
  | .ok a, .ok b =>
    if h : a = b then isTrue (by rw [h]) else isFalse (fun hc => h (Except.ok.inj hc))
  | .error a, .error b =>
    if h : a = b then isTrue (by rw [h]) else isFalse (fun hc => h (Except.error.inj hc))
  | .ok _, .error _ => isFalse (fun hc => Except.noConfusion hc)
  | .error _, .ok _ => isFalse (fun hc => Except.noConfusion hc)

/-- A computation that may throw: how it ended and the events it produced, in order. -/
structure Run (α : Type) where
  result : Except Failure α
  trace : List Event

/-- Normal completion with a value. -/
def Run.pure {α : Type} (a : α) : Run α := ⟨.ok a, []⟩

/-- Sequencing: an exception in the first part skips the second. -/
def Run.bind {α β : Type} (m : Run α) (f : α → Run β) : Run β :=
  match m.result with
  | .ok a => ⟨(f a).result, m.trace ++ (f a).trace⟩
  | .error e => ⟨.error e, m.trace⟩

instance : Monad Run where
  pure := Run.pure
  bind := Run.bind

/-- Produce one event. -/
def emit (e : Event) : Run Unit := ⟨.ok (), [e]⟩

/-- The statement `throw`. -/
def raise {α : Type} (e : Failure) : Run α := ⟨.error e, []⟩

/-- The block `try { body } catch (...) { handler }`. -/
def attempt {α : Type} (body : Run α) (handler : Run α) : Run α :=
  match body.result with
  | .ok a => ⟨.ok a, body.trace⟩
  | .error _ => ⟨handler.result, body.trace ++ handler.trace⟩

/-- The function `log_debug` (lines 16-19). -/
def log_debug (message : String) : Run Unit := do
  emit (.output message)
  emit (.output "\n")

/-- Modelled from the spec: the platform enumeration of playback states
(`GlobalSystemMediaTransportControlsSessionPlaybackStatus`, WinRT headers). -/
inductive PlaybackStatus
  | Closed
  | Opened
  | Changing
  | Stopped
  | Playing
  | Paused
  deriving DecidableEq, Repr

/-- Modelled from the spec: the artwork stream behind a thumbnail reference,
with the size it reports and the bytes it holds. -/
structure Stream where
  size : Nat
  content : List UInt8
  deriving DecidableEq, Repr

/-- Modelled from the spec: the media-properties snapshot; the thumbnail may be absent. -/
structure MediaProperties where
  title : String
  albumTitle : String
  artist : String
  thumbnail : Option Stream
  deriving DecidableEq, Repr

/-- Modelled from the spec: the timeline snapshot, in 64-bit counts of 100 ns
ticks (`lastUpdatedTime` since the platform epoch). -/
structure Timeline where
  position : Int
  endTime : Int
  lastUpdatedTime : Int
  deriving DecidableEq, Repr

/-- Modelled from the spec: what a fake session answers. -/
structure Session where
  properties : Option MediaProperties
  timeline : Timeline
  playbackStatus : PlaybackStatus
  accepted : Bool
  deriving DecidableEq, Repr

/-- Modelled from the spec: the session manager and its current session, if any. -/
structure Manager where
  currentSession : Option Session
  deriving DecidableEq, Repr

/-- Modelled from the spec: a fake platform, the session manager it hands out
(if any) and, for every call, whether and how that call fails. -/
structure Platform where
  fails : Op → Option Fault
  manager : Option Manager

/-- Modelled from the spec: a synchronous call on a platform object, answering
`value` unless the fake platform lets it fail. -/
def call {α : Type} (p : Platform) (op : Op) (value : α) : Run α := do
  emit (.call op)
  match p.fails op with
  | some _ => raise .hresult_error
  | none => pure value

/-- Modelled from the spec: an in-flight `IAsyncOperation<T>` (WinRT headers),
by the status it ends in. -/
inductive AsyncOp (α : Type)
  | completed (value : α)
  | failed

/-- Modelled from the spec: starting an asynchronous call on a platform object,
as in `session.TryPlayAsync()`. -/
def start {α : Type} (p : Platform) (op : Op) (value : α) : Run (AsyncOp α) := do
  emit (.call op)
  match p.fails op with
  | some .throws => raise .hresult_error
  | some .notCompleted => pure .failed
  | none => pure (.completed value)

/-- The function template `await` (lines 21-41): the result of a completed
operation; any other status becomes a `std::runtime_error`, which is logged
with the context and thrown again. -/
def await {α : Type} (op : AsyncOp α) (context : String) : Run α :=
  match op with
  | .completed value => pure value
  | .failed => do
    log_debug (context ++ ": " ++ "Async operation failed")
    raise (.runtime_error "Async operation failed")

/-- The function `get_session` (lines 81-98). -/
def get_session (p : Platform) : Run (Option Session) :=
  attempt
    (do
      let manager ← await (← start p .RequestAsync p.manager) "RequestAsync"
      match manager with
      | none => do
        log_debug "No media transport controls manager available"
        pure none
      | some m => do
        let session ← call p .GetCurrentSession m.currentSession
        match session with
        | none => do
          log_debug "No active media session found"
          pure none
        | some s => pure (some s))
    (do
      log_debug "Failed to get media session"
      pure none)

/-- The bytes up to the first NUL, as `c_str()` hands them to the runtime. -/
def c_str (s : String) : List Char := s.data.takeWhile (fun c => c ≠ Char.ofNat 0)

/-- Modelled from the spec: the marshaling primitive of the calling runtime,
"construct a caller-visible string". -/
def NewStringUTF (bytes : List Char) : Option String := some ⟨bytes⟩

/-- Conversion to `jint` (32 bits, two's complement). -/
def toInt32 (z : Int) : Int := (z + 2147483648) % 4294967296 - 2147483648

/-- Arithmetic in `int64_t` and conversion to `jlong` (64 bits, two's complement). -/
def toInt64 (z : Int) : Int :=
  (z + 9223372036854775808) % 18446744073709551616 - 9223372036854775808

/-! ## The JNI entry points (lines 112-309)

Each is `try { ... return value; } catch (...) { log } return sentinel;`. -/

/-- The entry point `getCurrentTrackTitle` (lines 112-127). -/
def Java_ru_snuffy_music_MusicController_getCurrentTrackTitle (p : Platform) :
    Run (Option String) :=
  attempt
    (do
      match ← get_session p with
      | some session => do
        let info ← await (← start p .TryGetMediaPropertiesAsync session.properties)
          "TryGetMediaPropertiesAsync (title)"
        match info with
        | some i => do
          let title ← call p .Title i.title
          pure (NewStringUTF (c_str title))
        | none => do
          log_debug "No media properties available for title"
          pure none
      | none => pure none)
    (do
      log_debug "Error in getCurrentTrackTitle"
      pure none)

/-- The entry point `getCurrentTrackAlbum` (lines 129-144). -/
def Java_ru_snuffy_music_MusicController_getCurrentTrackAlbum (p : Platform) :
    Run (Option String) :=
  attempt
    (do
      match ← get_session p with
      | some session => do
        let info ← await (← start p .TryGetMediaPropertiesAsync session.properties)
          "TryGetMediaPropertiesAsync (album)"
        match info with
        | some i => do
          let album ← call p .AlbumTitle i.albumTitle
          pure (NewStringUTF (c_str album))
        | none => do
          log_debug "No media properties available for album"
          pure none
      | none => pure none)
    (do
      log_debug "Error in getCurrentTrackAlbum"
      pure none)

/-- The entry point `getCurrentTrackArtist` (lines 146-161). -/
def Java_ru_snuffy_music_MusicController_getCurrentTrackArtist (p : Platform) :
    Run (Option String) :=
  attempt
    (do
      match ← get_session p with
      | some session => do
        let info ← await (← start p .TryGetMediaPropertiesAsync session.properties)
          "TryGetMediaPropertiesAsync (artist)"
        match info with
        | some i => do
          let artist ← call p .Artist i.artist
          pure (NewStringUTF (c_str artist))
        | none => do
          log_debug "No media properties available for artist"
          pure none
      | none => pure none)
    (do
      log_debug "Error in getCurrentTrackArtist"
      pure none)

/-- The statements of lines 169-174: open the stream, size the buffer, load,
read, encode.  The fake reader buffers at most `count` bytes of the stream on
`LoadAsync(count)`, and `ReadBytes` throws when the buffer holds fewer bytes
than asked for. -/
def readCover (p : Platform) (info : MediaProperties) (thumbnail : Stream) :
    Run (Option String) := do
  let _ ← call p .Thumbnail info.thumbnail
  let stream ← await (← start p .OpenReadAsync thumbnail) "OpenReadAsync (cover)"
  let input ← call p .GetInputStreamAt stream.content
  let reader ← call p .DataReader input
  let length := (← call p .Size stream.size) % 18446744073709551616
  let count := (← call p .Size stream.size) % 4294967296
  let loaded ← await (← start p (.LoadAsync count) (reader.take count)) "LoadAsync (cover)"
  emit (.call (.ReadBytes length))
  if (p.fails (.ReadBytes length)).isSome || loaded.length < length then
    raise .hresult_error
  else do
    let bytes := loaded.take length
    emit (.codec bytes)
    pure (NewStringUTF (c_str (to_base64 bytes)))

/-- The entry point `getCurrentTrackCoverBase64` (lines 163-183). -/
def Java_ru_snuffy_music_MusicController_getCurrentTrackCoverBase64 (p : Platform) :
    Run (Option String) :=
  attempt
    (do
      match ← get_session p with
      | some session => do
        let info ← await (← start p .TryGetMediaPropertiesAsync session.properties)
          "TryGetMediaPropertiesAsync (cover)"
        match info with
        | some i => do
          match ← call p .Thumbnail i.thumbnail with
          | some thumbnail => readCover p i thumbnail
          | none => do
            log_debug "No thumbnail available for cover"
            pure none
        | none => do
          log_debug "No thumbnail available for cover"
          pure none
      | none => pure none)
    (do
      log_debug "Error in getCurrentTrackCoverBase64"
      pure none)

/-- The entry point `getCurrentTrackProgress` (lines 185-197). -/
def Java_ru_snuffy_music_MusicController_getCurrentTrackProgress (p : Platform) : Run Int :=
  attempt
    (do
      match ← get_session p with
      | some session => do
        let timeline ← call p .GetTimelineProperties session.timeline
        let position ← call p .Position timeline.position
        pure (toInt32 (Int.tdiv position 10000000))
      | none => pure (-1))
    (do
      log_debug "Error in getCurrentTrackProgress"
      pure (-1))

/-- The entry point `getCurrentTrackDuration` (lines 199-211). -/
def Java_ru_snuffy_music_MusicController_getCurrentTrackDuration (p : Platform) : Run Int :=
  attempt
    (do
      match ← get_session p with
      | some session => do
        let timeline ← call p .GetTimelineProperties session.timeline
        let endTime ← call p .EndTime timeline.endTime
        pure (toInt32 (Int.tdiv endTime 10000000))
      | none => pure (-1))
    (do
      log_debug "Error in getCurrentTrackDuration"
      pure (-1))

/-- The entry point `isPlaying` (lines 213-225). -/
def Java_ru_snuffy_music_MusicController_isPlaying (p : Platform) : Run Bool :=
  attempt
    (do
      match ← get_session p with
      | some session => do
        let info ← call p .GetPlaybackInfo session.playbackStatus
        let status ← call p .PlaybackStatus info
        pure (if status = PlaybackStatus.Playing then true else false)
      | none => pure false)
    (do
      log_debug "Error in isPlaying"
      pure false)

/-- The entry point `setPlaying` (lines 227-242). -/
def Java_ru_snuffy_music_MusicController_setPlaying (p : Platform) (play : Bool) : Run Unit :=
  attempt
    (do
      match ← get_session p with
      | some session =>
        if play then do
          let _ ← await (← start p .TryPlayAsync session.accepted) "TryPlayAsync"
          pure ()
        else do
          let _ ← await (← start p .TryPauseAsync session.accepted) "TryPauseAsync"
          pure ()
      | none => pure ())
    (log_debug "Error in setPlaying")

/-- The entry point `seekTo` (lines 244-255); `seconds` is a `jint`. -/
def Java_ru_snuffy_music_MusicController_seekTo (p : Platform) (seconds : Int) : Run Unit :=
  attempt
    (do
      match ← get_session p with
      | some session => do
        let position := toInt64 (toInt64 seconds * 10000000)
        let _ ← await (← start p (.TryChangePlaybackPositionAsync position) session.accepted)
          "TryChangePlaybackPositionAsync"
        pure ()
      | none => pure ())
    (log_debug "Error in seekTo")

/-- The entry point `nextTrack` (lines 257-267). -/
def Java_ru_snuffy_music_MusicController_nextTrack (p : Platform) : Run Unit :=
  attempt
    (do
      match ← get_session p with
      | some session => do
        let _ ← await (← start p .TrySkipNextAsync session.accepted) "TrySkipNextAsync"
        pure ()
      | none => pure ())
    (log_debug "Error in nextTrack")

/-- The entry point `previousTrack` (lines 269-279). -/
def Java_ru_snuffy_music_MusicController_previousTrack (p : Platform) : Run Unit :=
  attempt
    (do
      match ← get_session p with
      | some session => do
        let _ ← await (← start p .TrySkipPreviousAsync session.accepted) "TrySkipPreviousAsync"
        pure ()
      | none => pure ())
    (log_debug "Error in previousTrack")

/-- The entry point `getLastKnownPosition` (lines 281-293). -/
def Java_ru_snuffy_music_MusicController_getLastKnownPosition (p : Platform) : Run Int :=
  attempt
    (do
      match ← get_session p with
      | some session => do
        let timeline ← call p .GetTimelineProperties session.timeline
        let position ← call p .Position timeline.position
        pure (toInt32 (Int.tdiv position 10000000))
      | none => pure (-1))
    (do
      log_debug "Error in getLastKnownPosition"
      pure (-1))

/-- The entry point `getLastUpdatedTime` (lines 295-309). -/
def Java_ru_snuffy_music_MusicController_getLastUpdatedTime (p : Platform) : Run Int :=
  attempt
    (do
      match ← get_session p with
      | some session => do
        let timeline ← call p .GetTimelineProperties session.timeline
        let timestamp ← call p .LastUpdatedTime timeline.lastUpdatedTime
        let unixTimeMs := Int.tdiv (toInt64 (timestamp - 116444736000000000)) 10000
        pure (toInt64 unixTimeMs)
      | none => pure (-1))
    (do
      log_debug "Error in getLastUpdatedTime"
      pure (-1))

/-- The commands among the events of a trace: play, pause, change position, skip. -/
def commands (trace : List Event) : List Op :=
  trace.filterMap (fun e =>
    match e with
    | .call .TryPlayAsync => some .TryPlayAsync
    | .call .TryPauseAsync => some .TryPauseAsync
    | .call (.TryChangePlaybackPositionAsync position) =>
      some (.TryChangePlaybackPositionAsync position)
    | .call .TrySkipNextAsync => some .TrySkipNextAsync
    | .call .TrySkipPreviousAsync => some .TrySkipPreviousAsync
    | _ => none)

/-! ## Predicates and sample platforms used in the statements -/

/-- The run returned `value` normally and issued no command. -/
def quietly {α : Type} (r : Run α) (value : α) : Prop :=
  r.result = .ok value ∧ commands r.trace = []

/-- No exception leaves the run, and whenever a platform call it made fails
the run returns `sentinel`. -/
def degrades {α : Type} (p : Platform) (r : Run α) (sentinel : α) : Prop :=
  (∃ v, r.result = .ok v) ∧
  ∀ op, Event.call op ∈ r.trace → (p.fails op).isSome → r.result = .ok sentinel

/-- A computation in which a failing platform call always ends in an exception. -/
def Strict (p : Platform) {α : Type} (m : Run α) : Prop :=
  ∀ op, Event.call op ∈ m.trace → (p.fails op).isSome → ∃ e, m.result = .error e

/-- Events of the artwork path: opening or reading the thumbnail stream, or running the codec. -/
def touchesStream : Event → Bool
  | .call .OpenReadAsync => true
  | .call .GetInputStreamAt => true
  | .call .DataReader => true
  | .call .Size => true
  | .call (.LoadAsync _) => true
  | .call (.ReadBytes _) => true
  | .codec _ => true
  | _ => false

/-- A fake session: a playing track at `position` ticks, with the given thumbnail. -/
def sampleSession (position : Int) (thumbnail : Option Stream) : Session :=
  { properties := some ⟨"Title", "Album", "Artist", thumbnail⟩,
    timeline := ⟨position, 30000000, 116444736000000000⟩,
    playbackStatus := .Playing,
    accepted := true }

/-- Five bytes of artwork. -/
def sampleArt : Stream := ⟨5, [255, 254, 253, 0, 1]⟩

/-- A fake platform whose current session is `session`. -/
def platformWith (fails : Op → Option Fault) (session : Session) : Platform :=
  ⟨fails, some ⟨some session⟩⟩

/-- A fake platform without a session manager. -/
def noManager : Platform := ⟨fun _ => none, none⟩

/-- No call fails. -/
def noFault : Op → Option Fault := fun _ => none

/-- Exactly the call `op` fails, in the way `fault`. -/
def onlyFault (op : Op) (fault : Fault) : Op → Option Fault :=
  fun o => if o = op then some fault else none

/-- A fake session without a media-properties snapshot. -/
def bareSession : Session :=
  { properties := none,
    timeline := ⟨0, 0, 116444736000000000⟩,
    playbackStatus := .Paused,
    accepted := true }

/-! ## Theorems: the codec -/

set_option maxRecDepth 100000 in
theorem and_fc_shift (b : Nat) (h : b < 256) : (b &&& 0xfc) >>> 2 = b / 4 := by
  revert b; decide

set_option maxRecDepth 100000 in
theorem and_03_shift (b : Nat) (h : b < 256) : (b &&& 0x03) <<< 4 = b % 4 * 16 := by
  revert b; decide

set_option maxRecDepth 100000 in
theorem and_f0_shift (b : Nat) (h : b < 256) : (b &&& 0xf0) >>> 4 = b / 16 := by
  revert b; decide

set_option maxRecDepth 100000 in
theorem and_0f_shift (b : Nat) (h : b < 256) : (b &&& 0x0f) <<< 2 = b % 16 * 4 := by
  revert b; decide

set_option maxRecDepth 100000 in
theorem and_c0_shift (b : Nat) (h : b < 256) : (b &&& 0xc0) >>> 6 = b / 64 := by
  revert b; decide

set_option maxRecDepth 100000 in
theorem and_3f (b : Nat) (h : b < 256) : b &&& 0x3f = b % 64 := by
  revert b; decide

theorem or_16 (hi lo : Nat) (h1 : hi < 4) (h2 : lo < 16) : (hi * 16) ||| lo = hi * 16 + lo := by
  have key : ∀ hi < 4, ∀ lo < 16, (hi * 16) ||| lo = hi * 16 + lo := by decide
  exact key hi h1 lo h2

set_option maxRecDepth 100000 in
theorem or_4 (hi lo : Nat) (h1 : hi < 16) (h2 : lo < 4) : (hi * 4) ||| lo = hi * 4 + lo := by
  have key : ∀ hi < 16, ∀ lo < 4, (hi * 4) ||| lo = hi * 4 + lo := by decide
  exact key hi h1 lo h2

theorem pack0_eq (b0 b1 b2 : Nat) (h0 : b0 < 256) : pack0 ⟨b0, b1, b2⟩ = b0 / 4 := by
  simp only [pack0, and_fc_shift b0 h0]; omega

theorem pack1_eq (b0 b1 b2 : Nat) (h0 : b0 < 256) (h1 : b1 < 256) :
    pack1 ⟨b0, b1, b2⟩ = b0 % 4 * 16 + b1 / 16 := by
  simp only [pack1, and_03_shift b0 h0, and_f0_shift b1 h1]
  rw [or_16 _ _ (by omega) (by omega)]; omega

theorem pack2_eq (b0 b1 b2 : Nat) (h1 : b1 < 256) (h2 : b2 < 256) :
    pack2 ⟨b0, b1, b2⟩ = b1 % 16 * 4 + b2 / 64 := by
  simp only [pack2, and_0f_shift b1 h1, and_c0_shift b2 h2]
  rw [or_4 _ _ (by omega) (by omega)]; omega

theorem pack3_eq (b0 b1 b2 : Nat) (h2 : b2 < 256) : pack3 ⟨b0, b1, b2⟩ = b2 % 64 := by
  simp only [pack3, and_3f b2 h2]; omega

theorem stdGroup_eq (b0 b1 b2 : Nat) (h0 : b0 < 256) (h1 : b1 < 256) (h2 : b2 < 256) :
    stdGroup b0 b1 b2 =
      [stdSymbol (b0 / 4), stdSymbol (b0 % 4 * 16 + b1 / 16),
       stdSymbol (b1 % 16 * 4 + b2 / 64), stdSymbol (b2 % 64)] := by
  have e0 : b0 >>> 2 = b0 / 4 := by rw [Nat.shiftRight_eq_div_pow]
  have e1 : b1 >>> 4 = b1 / 16 := by rw [Nat.shiftRight_eq_div_pow]
  have e2 : b2 >>> 6 = b2 / 64 := by rw [Nat.shiftRight_eq_div_pow]
  have a0 : (b0 &&& 0x3) <<< 4 = b0 % 4 * 16 := and_03_shift b0 h0
  have a1 : (b1 &&& 0xf) <<< 2 = b1 % 16 * 4 := and_0f_shift b1 h1
  have a2 : b2 &&& 0x3f = b2 % 64 := and_3f b2 h2
  simp only [stdGroup, e0, e1, e2, a0, a1, a2]
  rw [or_16 _ _ (by omega) (by omega), or_4 _ _ (by omega) (by omega)]

set_option maxRecDepth 100000 in
theorem charAt_eq_stdSymbol (n : Nat) (h : n < 64) : charAt n = stdSymbol n := by
  revert n; decide

set_option maxRecDepth 100000 in
theorem stdValue_stdSymbol (n : Nat) (h : n < 64) : stdValue (stdSymbol n) = some n := by
  revert n; decide

set_option maxRecDepth 100000 in
theorem stdSymbol_ne_pad (n : Nat) (h : n < 64) : stdSymbol n ≠ Char.ofNat 61 := by
  revert n; decide


theorem toNat_lt_256 (b : UInt8) : b.toNat < 256 := UInt8.toNat_lt b

theorem pad_eq : '=' = Char.ofNat 61 := by decide

theorem loopBody_zero (b3 : Buf3) (b4 : Buf4) (r : String) (b : UInt8) :
    loopBody ⟨0, b3, b4, r⟩ b = ⟨1, ⟨b.toNat, b3.b1, b3.b2⟩, b4, r⟩ := by
  simp [loopBody, Buf3.set]

theorem loopBody_one (b3 : Buf3) (b4 : Buf4) (r : String) (b : UInt8) :
    loopBody ⟨1, b3, b4, r⟩ b = ⟨2, ⟨b3.b0, b.toNat, b3.b2⟩, b4, r⟩ := by
  simp [loopBody, Buf3.set]

theorem appendSymbols_data (b4 : Buf4) (r : String) :
    (appendSymbols b4 2 r).data = r.data ++ [charAt b4.s0, charAt b4.s1] ∧
    (appendSymbols b4 3 r).data = r.data ++ [charAt b4.s0, charAt b4.s1, charAt b4.s2] ∧
    (appendSymbols b4 4 r).data = r.data ++ [charAt b4.s0, charAt b4.s1, charAt b4.s2, charAt b4.s3] := by
  simp [appendSymbols, List.range_succ, Buf4.get, String.push]

theorem loopBody_two (b3 : Buf3) (b4 : Buf4) (r : String) (b : UInt8) :
    ∃ b4q, loopBody ⟨2, b3, b4, r⟩ b =
      ⟨0, ⟨b3.b0, b3.b1, b.toNat⟩, b4q,
        ⟨r.data ++ [charAt (pack0 ⟨b3.b0, b3.b1, b.toNat⟩), charAt (pack1 ⟨b3.b0, b3.b1, b.toNat⟩),
          charAt (pack2 ⟨b3.b0, b3.b1, b.toNat⟩), charAt (pack3 ⟨b3.b0, b3.b1, b.toNat⟩)]⟩⟩ := by
  refine ⟨⟨pack0 ⟨b3.b0, b3.b1, b.toNat⟩, pack1 ⟨b3.b0, b3.b1, b.toNat⟩,
    pack2 ⟨b3.b0, b3.b1, b.toNat⟩, pack3 ⟨b3.b0, b3.b1, b.toNat⟩⟩, ?_⟩
  simp [loopBody, Buf3.set, String.ext_iff, (appendSymbols_data _ _).2.2]

theorem finish_zero (b3 : Buf3) (b4 : Buf4) (r : String) : finish ⟨0, b3, b4, r⟩ = r := by
  simp [finish]

theorem finish_one (b3 : Buf3) (b4 : Buf4) (r : String) :
    finish ⟨1, b3, b4, r⟩ =
      ⟨r.data ++ [charAt (pack0 ⟨b3.b0, 0, 0⟩), charAt (pack1 ⟨b3.b0, 0, 0⟩), '=', '=']⟩ := by
  simp [finish, List.range', Buf3.set, String.ext_iff, String.push, (appendSymbols_data _ _).1]

theorem finish_two (b3 : Buf3) (b4 : Buf4) (r : String) :
    finish ⟨2, b3, b4, r⟩ =
      ⟨r.data ++ [charAt (pack0 ⟨b3.b0, b3.b1, 0⟩), charAt (pack1 ⟨b3.b0, b3.b1, 0⟩),
        charAt (pack2 ⟨b3.b0, b3.b1, 0⟩), '=']⟩ := by
  simp [finish, List.range', Buf3.set, String.ext_iff, String.push, (appendSymbols_data _ _).2.1]

/-- The loop and the final part, started with `i = 0` and any contents of the
arrays, append the standard encoding of the data to `result`. -/
theorem finish_foldl (data : List UInt8) :
    ∀ (b3 : Buf3) (b4 : Buf4) (r : String),
      finish (data.foldl loopBody ⟨0, b3, b4, r⟩) = ⟨r.data ++ std_base64 data⟩ := by
  induction data using std_base64.induct with
  | case1 => intro b3 b4 r; simp [finish_zero, std_base64]
  | case2 b0 =>
    intro b3 b4 r
    have h0 := toNat_lt_256 b0
    simp only [List.foldl, loopBody_zero, finish_one, std_base64, pad_eq,
      pack0_eq _ _ _ h0, pack1_eq _ _ _ h0 (by decide : 0 < 256),
      stdGroup_eq _ _ _ h0 (by decide : 0 < 256) (by decide : 0 < 256)]
    rw [charAt_eq_stdSymbol _ (by omega), charAt_eq_stdSymbol _ (by omega)]
    simp
  | case3 b0 b1 =>
    intro b3 b4 r
    have h0 := toNat_lt_256 b0
    have h1 := toNat_lt_256 b1
    simp only [List.foldl, loopBody_zero, loopBody_one, finish_two, std_base64, pad_eq,
      pack0_eq _ _ _ h0, pack1_eq _ _ _ h0 h1, pack2_eq _ _ _ h1 (by decide : 0 < 256),
      stdGroup_eq _ _ _ h0 h1 (by decide : 0 < 256)]
    rw [charAt_eq_stdSymbol _ (by omega), charAt_eq_stdSymbol _ (by omega),
      charAt_eq_stdSymbol _ (by omega)]
    simp
  | case4 b0 b1 b2 rest ih =>
    intro b3 b4 r
    have h0 := toNat_lt_256 b0
    have h1 := toNat_lt_256 b1
    have h2 := toNat_lt_256 b2
    obtain ⟨b4q, hq⟩ := loopBody_two ⟨b0.toNat, b1.toNat, b3.b2⟩ b4 r b2
    simp only [List.foldl, loopBody_zero, loopBody_one, hq, ih, std_base64,
      pack0_eq _ _ _ h0, pack1_eq _ _ _ h0 h1, pack2_eq _ _ _ h1 h2, pack3_eq _ _ _ h2,
      stdGroup_eq _ _ _ h0 h1 h2]
    rw [charAt_eq_stdSymbol _ (by omega), charAt_eq_stdSymbol _ (by omega),
      charAt_eq_stdSymbol _ (by omega), charAt_eq_stdSymbol _ (by omega)]
    simp

theorem to_base64_data (data : List UInt8) : (to_base64 data).data = std_base64 data := by
  simp [to_base64, initState, finish_foldl]


theorem ofNat_of_eq (b : UInt8) (n : Nat) (h : n = b.toNat) : UInt8.ofNat n = b := by
  subst h
  cases b with
  | mk v => simp [UInt8.ofNat, UInt8.toNat]

theorem std_base64_length (data : List UInt8) :
    (std_base64 data).length = 4 * ((data.length + 2) / 3) := by
  induction data using std_base64.induct with
  | case1 => simp [std_base64]
  | case2 b0 => simp [std_base64, stdGroup]
  | case3 b0 b1 => simp [std_base64, stdGroup]
  | case4 b0 b1 b2 rest ih =>
    simp only [std_base64, List.length_append, ih, stdGroup, List.length_cons, List.length_nil]
    omega

theorem std_base64_padding (data : List UInt8) :
    ∃ body, std_base64 data = body ++ List.replicate ((3 - data.length % 3) % 3) '=' ∧
      '=' ∉ body := by
  induction data using std_base64.induct with
  | case1 => exact ⟨[], by simp [std_base64]⟩
  | case2 b0 =>
    have h0 := toNat_lt_256 b0
    refine ⟨[stdSymbol (b0.toNat / 4), stdSymbol (b0.toNat % 4 * 16 + 0 / 16)], ?_, ?_⟩
    · simp [std_base64, stdGroup_eq _ _ _ h0 (by decide : 0 < 256) (by decide : 0 < 256), pad_eq]
    · have n0 := stdSymbol_ne_pad (b0.toNat / 4) (by omega)
      have n1 := stdSymbol_ne_pad (b0.toNat % 4 * 16 + 0 / 16) (by omega)
      simp only [pad_eq, List.mem_cons, List.mem_nil_iff, or_false, not_or]
      exact ⟨fun h => n0 h.symm, fun h => n1 h.symm⟩
  | case3 b0 b1 =>
    have h0 := toNat_lt_256 b0
    have h1 := toNat_lt_256 b1
    refine ⟨[stdSymbol (b0.toNat / 4), stdSymbol (b0.toNat % 4 * 16 + b1.toNat / 16),
      stdSymbol (b1.toNat % 16 * 4 + 0 / 64)], ?_, ?_⟩
    · simp [std_base64, stdGroup_eq _ _ _ h0 h1 (by decide : 0 < 256), pad_eq]
    · have n0 := stdSymbol_ne_pad (b0.toNat / 4) (by omega)
      have n1 := stdSymbol_ne_pad (b0.toNat % 4 * 16 + b1.toNat / 16) (by omega)
      have n2 := stdSymbol_ne_pad (b1.toNat % 16 * 4 + 0 / 64) (by omega)
      simp only [pad_eq, List.mem_cons, List.mem_nil_iff, or_false, not_or]
      exact ⟨fun h => n0 h.symm, fun h => n1 h.symm, fun h => n2 h.symm⟩
  | case4 b0 b1 b2 rest ih =>
    have h0 := toNat_lt_256 b0
    have h1 := toNat_lt_256 b1
    have h2 := toNat_lt_256 b2
    obtain ⟨body, hb, hn⟩ := ih
    refine ⟨stdGroup b0.toNat b1.toNat b2.toNat ++ body, ?_, ?_⟩
    · have hl : (b0 :: b1 :: b2 :: rest).length % 3 = rest.length % 3 := by
        simp only [List.length_cons]; omega
      rw [hl, std_base64, hb, List.append_assoc]
    · have n0 := stdSymbol_ne_pad (b0.toNat / 4) (by omega)
      have n1 := stdSymbol_ne_pad (b0.toNat % 4 * 16 + b1.toNat / 16) (by omega)
      have n2 := stdSymbol_ne_pad (b1.toNat % 16 * 4 + b2.toNat / 64) (by omega)
      have n3 := stdSymbol_ne_pad (b2.toNat % 64) (by omega)
      rw [stdGroup_eq _ _ _ h0 h1 h2]
      simp only [pad_eq, List.mem_append, List.mem_cons, List.mem_nil_iff, or_false, not_or]
      refine ⟨⟨fun h => n0 h.symm, fun h => n1 h.symm, fun h => n2 h.symm, fun h => n3 h.symm⟩, ?_⟩
      rw [← pad_eq]; exact hn

theorem decodeBlock_full (q0 q1 q2 q3 : Nat) (h0 : q0 < 64) (h1 : q1 < 64) (h2 : q2 < 64)
    (h3 : q3 < 64) (last : Bool) :
    decodeBlock (stdSymbol q0) (stdSymbol q1) (stdSymbol q2) (stdSymbol q3) last =
      some [UInt8.ofNat (q0 * 4 + q1 / 16), UInt8.ofNat (q1 % 16 * 16 + q2 / 4),
            UInt8.ofNat (q2 % 4 * 64 + q3)] := by
  simp only [decodeBlock, stdSymbol_ne_pad q3 h3, if_false, stdValue_stdSymbol _ h0,
    stdValue_stdSymbol _ h1, stdValue_stdSymbol _ h2, stdValue_stdSymbol _ h3]

theorem decodeBlock_pad_one (q0 q1 q2 : Nat) (h0 : q0 < 64) (h1 : q1 < 64) (h2 : q2 < 64)
    (hz : q2 % 4 = 0) :
    decodeBlock (stdSymbol q0) (stdSymbol q1) (stdSymbol q2) (Char.ofNat 61) true =
      some [UInt8.ofNat (q0 * 4 + q1 / 16), UInt8.ofNat (q1 % 16 * 16 + q2 / 4)] := by
  simp only [decodeBlock, stdSymbol_ne_pad q2 h2, if_false, if_true, stdValue_stdSymbol _ h0,
    stdValue_stdSymbol _ h1, stdValue_stdSymbol _ h2, hz, Bool.not_true, Bool.false_eq_true]

theorem decodeBlock_pad_two (q0 q1 : Nat) (h0 : q0 < 64) (h1 : q1 < 64) (hz : q1 % 16 = 0) :
    decodeBlock (stdSymbol q0) (stdSymbol q1) (Char.ofNat 61) (Char.ofNat 61) true =
      some [UInt8.ofNat (q0 * 4 + q1 / 16)] := by
  simp only [decodeBlock, if_false, if_true, stdValue_stdSymbol _ h0,
    stdValue_stdSymbol _ h1, hz, Bool.not_true, Bool.false_eq_true]

theorem decodeChars_std_base64 (data : List UInt8) :
    decodeChars (std_base64 data) = some data := by
  induction data using std_base64.induct with
  | case1 => simp [std_base64, decodeChars]
  | case2 b0 =>
    have h0 := toNat_lt_256 b0
    have e : UInt8.ofNat (b0.toNat / 4 * 4 + (b0.toNat % 4 * 16 + 0 / 16) / 16) = b0 :=
      ofNat_of_eq _ _ (by omega)
    rw [std_base64, stdGroup_eq _ _ _ h0 (by decide : 0 < 256) (by decide : 0 < 256)]
    simp only [List.take, List.replicate, List.cons_append, List.nil_append, decodeChars,
      List.isEmpty, decodeBlock_pad_two _ _ (show b0.toNat / 4 < 64 by omega)
        (show b0.toNat % 4 * 16 + 0 / 16 < 64 by omega) (by omega), e, List.append_nil]
  | case3 b0 b1 =>
    have h0 := toNat_lt_256 b0
    have h1 := toNat_lt_256 b1
    have e0 : UInt8.ofNat (b0.toNat / 4 * 4 + (b0.toNat % 4 * 16 + b1.toNat / 16) / 16) = b0 :=
      ofNat_of_eq _ _ (by omega)
    have e1 : UInt8.ofNat ((b0.toNat % 4 * 16 + b1.toNat / 16) % 16 * 16
        + (b1.toNat % 16 * 4 + 0 / 64) / 4) = b1 :=
      ofNat_of_eq _ _ (by omega)
    rw [std_base64, stdGroup_eq _ _ _ h0 h1 (by decide : 0 < 256)]
    simp only [List.take, List.replicate, List.cons_append, List.nil_append, decodeChars,
      List.isEmpty, decodeBlock_pad_one _ _ _ (show b0.toNat / 4 < 64 by omega)
        (show b0.toNat % 4 * 16 + b1.toNat / 16 < 64 by omega)
        (show b1.toNat % 16 * 4 + 0 / 64 < 64 by omega) (by omega), e0, e1, List.append_nil]
  | case4 b0 b1 b2 rest ih =>
    have h0 := toNat_lt_256 b0
    have h1 := toNat_lt_256 b1
    have h2 := toNat_lt_256 b2
    have e0 : UInt8.ofNat (b0.toNat / 4 * 4 + (b0.toNat % 4 * 16 + b1.toNat / 16) / 16) = b0 :=
      ofNat_of_eq _ _ (by omega)
    have e1 : UInt8.ofNat ((b0.toNat % 4 * 16 + b1.toNat / 16) % 16 * 16
        + (b1.toNat % 16 * 4 + b2.toNat / 64) / 4) = b1 :=
      ofNat_of_eq _ _ (by omega)
    have e2 : UInt8.ofNat ((b1.toNat % 16 * 4 + b2.toNat / 64) % 4 * 64 + b2.toNat % 64) = b2 :=
      ofNat_of_eq _ _ (by omega)
    rw [std_base64, stdGroup_eq _ _ _ h0 h1 h2]
    simp only [List.cons_append, List.nil_append, decodeChars, ih,
      decodeBlock_full _ _ _ _ (show b0.toNat / 4 < 64 by omega)
        (show b0.toNat % 4 * 16 + b1.toNat / 16 < 64 by omega)
        (show b1.toNat % 16 * 4 + b2.toNat / 64 < 64 by omega)
        (show b2.toNat % 64 < 64 by omega), e0, e1, e2]
    simp [ih]

/-- The string `chars` of the source is the alphabet `A-Z a-z 0-9 + /` in order. -/
theorem chars_is_standard_alphabet : chars.data = (List.range 64).map stdSymbol := by
  decide

/-- The reference decoder on the test vectors of RFC 4648, section 10, and on
malformed input: a wrong length, a character outside the alphabet, padding
before the last block, non-zero pad bits. -/
theorem rfc4648_decode_vectors :
    rfc4648_decode "" = some [] ∧
    rfc4648_decode "Zg==" = some [102] ∧
    rfc4648_decode "Zm8=" = some [102, 111] ∧
    rfc4648_decode "Zm9v" = some [102, 111, 111] ∧
    rfc4648_decode "Zm9vYg==" = some [102, 111, 111, 98] ∧
    rfc4648_decode "Zm9vYmE=" = some [102, 111, 111, 98, 97] ∧
    rfc4648_decode "Zm9vYmFy" = some [102, 111, 111, 98, 97, 114] ∧
    rfc4648_decode "Zm9" = none ∧
    rfc4648_decode "Zm9*" = none ∧
    rfc4648_decode "Zg==Zm9v" = none ∧
    rfc4648_decode "Zh==" = none := by
  decide

/-- The encoder on the test vectors of RFC 4648, section 10. -/
theorem to_base64_vectors :
    to_base64 [102] = "Zg==" ∧
    to_base64 [102, 111] = "Zm8=" ∧
    to_base64 [102, 111, 111] = "Zm9v" ∧
    to_base64 [102, 111, 111, 98] = "Zm9vYg==" ∧
    to_base64 [102, 111, 111, 98, 97] = "Zm9vYmE=" ∧
    to_base64 [102, 111, 111, 98, 97, 114] = "Zm9vYmFy" := by
  decide

/-- Claim C1 (round trip): for every byte sequence, of any length, decoding the
output of `to_base64` with the reference RFC 4648 decoder gives back exactly
the bytes. -/
theorem to_base64_round_trip (data : List UInt8) :
    rfc4648_decode (to_base64 data) = some data := by
  rw [rfc4648_decode, to_base64_data, decodeChars_std_base64]

/-- Claim C2 (length): for `n` input bytes `to_base64` returns exactly
`4 * ceil(n / 3)` characters, and the empty input gives the empty string. -/
theorem to_base64_length (data : List UInt8) :
    (to_base64 data).length = 4 * ((data.length + 2) / 3) ∧ to_base64 [] = "" := by
  refine ⟨?_, by decide⟩
  rw [String.length, to_base64_data, std_base64_length]

/-- Claim C3 (standard encoding): `to_base64` is the standard base64 encoding
`std_base64` (four alphabet symbols per full group, a zero-padded final group
of `k` bytes giving `k + 1` symbols), and its output is a part without any `=`
followed by exactly `3 - k` characters `=` (none when `k = 0`). -/
theorem to_base64_standard (data : List UInt8) :
    to_base64 data = String.mk (std_base64 data) ∧
    ∃ body, (to_base64 data).data
        = body ++ List.replicate ((3 - data.length % 3) % 3) '=' ∧ '=' ∉ body := by
  refine ⟨?_, ?_⟩
  · rw [String.ext_iff, to_base64_data]
  · rw [to_base64_data]; exact std_base64_padding data

/-! ## Theorems: exceptions and the session accessor -/

theorem strict_pure (p : Platform) {α : Type} (a : α) : Strict p (pure a : Run α) := by
  intro op h; simp [pure, Run.pure] at h

theorem strict_log (p : Platform) (msg : String) : Strict p (log_debug msg) := by
  intro op h; simp [log_debug, emit, bind, Run.bind] at h

theorem strict_bind (p : Platform) {α β : Type} (m : Run α) (f : α → Run β)
    (hm : Strict p m) (hf : ∀ a, Strict p (f a)) : Strict p (m >>= f) := by
  intro op h hfail
  simp only [bind, Run.bind] at h ⊢
  cases hr : m.result with
  | error e => simp
  | ok a =>
    simp only [hr] at h ⊢
    rcases List.mem_append.mp h with h1 | h2
    · obtain ⟨e, he⟩ := hm op h1 hfail
      rw [hr] at he; cases he
    · exact hf a op h2 hfail

theorem strict_call (p : Platform) {α : Type} (op : Op) (v : α) : Strict p (call p op v) := by
  intro o h hfail
  cases hf : p.fails op with
  | none =>
    simp [call, emit, bind, Run.bind, pure, Run.pure, hf] at h
    subst h; simp [hf] at hfail
  | some f => simp [call, emit, bind, Run.bind, raise, hf]

theorem strict_start_await (p : Platform) {α β : Type} (op : Op) (v : α) (ctx : String)
    (k : α → Run β) (hk : ∀ a, Strict p (k a)) :
    Strict p (start p op v >>= fun o => await o ctx >>= k) := by
  intro o h hfail
  cases hf : p.fails op with
  | none =>
    simp only [start, await, emit, bind, Run.bind, pure, Run.pure, hf] at h ⊢
    simp at h
    rcases h with h | h
    · subst h; simp [hf] at hfail
    · exact hk v o h hfail
  | some f =>
    cases f <;> simp [start, await, emit, bind, Run.bind, raise, log_debug, pure, Run.pure, hf]

theorem get_session_ok (p : Platform) : ∃ v, (get_session p).result = .ok v := by
  simp only [get_session, attempt, start, await, call, emit, raise, log_debug, bind, Run.bind,
    pure, Run.pure]
  cases h1 : p.fails .RequestAsync with
  | some f => cases f <;> simp
  | none =>
    cases hm : p.manager with
    | none => simp
    | some m =>
      cases h2 : p.fails .GetCurrentSession with
      | some f => simp
      | none => cases hs : m.currentSession <;> simp [hs]

theorem get_session_failing (p : Platform) (op : Op) (h : Event.call op ∈ (get_session p).trace)
    (hfail : (p.fails op).isSome) : (get_session p).result = .ok none := by
  revert h
  simp only [get_session, attempt, start, await, call, emit, raise, log_debug, bind, Run.bind,
    pure, Run.pure]
  cases h1 : p.fails .RequestAsync with
  | some f => cases f <;> simp
  | none =>
    cases hm : p.manager with
    | none => simp
    | some m =>
      cases h2 : p.fails .GetCurrentSession with
      | some f => simp
      | none =>
        cases hs : m.currentSession with
        | none => simp [hs]
        | some s =>
          simp [hs]
          constructor <;> rintro rfl <;> simp_all

theorem get_session_commands (p : Platform) : commands (get_session p).trace = [] := by
  simp only [get_session, attempt, start, await, call, emit, raise, log_debug, bind, Run.bind,
    pure, Run.pure]
  cases h1 : p.fails .RequestAsync with
  | some f => cases f <;> simp [commands]
  | none =>
    cases hm : p.manager with
    | none => simp [commands]
    | some m =>
      cases h2 : p.fails .GetCurrentSession with
      | some f => simp [commands]
      | none => cases hs : m.currentSession <;> simp [commands, hs]

theorem get_session_stream (p : Platform) :
    ∀ e ∈ (get_session p).trace, touchesStream e = false := by
  simp only [get_session, attempt, start, await, call, emit, raise, log_debug, bind, Run.bind,
    pure, Run.pure]
  cases h1 : p.fails .RequestAsync with
  | some f => cases f <;> simp [touchesStream]
  | none =>
    cases hm : p.manager with
    | none => simp [touchesStream]
    | some m =>
      cases h2 : p.fails .GetCurrentSession with
      | some f => simp [touchesStream]
      | none => cases hs : m.currentSession <;> simp [touchesStream, hs]

theorem commands_append (a b : List Event) : commands (a ++ b) = commands a ++ commands b := by
  simp [commands, List.filterMap_append]

/-- The shape shared by the entry points, session absent: the value of the
fall-through path and no event beyond those of `get_session`. -/
theorem entry_absent (p : Platform) {α : Type} (k : Option Session → Run α)
    (handler : Run α) (sentinel : α) (h : (get_session p).result = .ok none)
    (hk : k none = pure sentinel) :
    quietly (attempt (get_session p >>= k) handler) sentinel := by
  simp [quietly, attempt, bind, Run.bind, h, hk, pure, Run.pure, get_session_commands]

/-- The shape shared by the entry points, session present: the run continues
with the session after the events of `get_session`. -/
theorem entry_present (p : Platform) {α : Type} (k : Option Session → Run α)
    (handler : Run α) (s : Session) (h : (get_session p).result = .ok (some s)) :
    (attempt (get_session p >>= k) handler).result = (attempt (k (some s)) handler).result ∧
    (attempt (get_session p >>= k) handler).trace
      = (get_session p).trace ++ (attempt (k (some s)) handler).trace := by
  cases hr : (k (some s)).result <;> simp [attempt, bind, Run.bind, h, hr]

/-- The shape shared by the entry points: with a strict continuation after
`get_session`, no exception leaves the `try` block and the sentinel is
returned whenever a call that was made fails. -/
theorem entry_of_strict (p : Platform) {α : Type} (k : Option Session → Run α)
    (handler : Run α) (sentinel : α)
    (hk : ∀ s, Strict p (k (some s)))
    (hnone : (k none).result = .ok sentinel)
    (hh : handler.result = .ok sentinel) :
    degrades p (attempt (get_session p >>= k) handler) sentinel := by
  obtain ⟨v, hv⟩ := get_session_ok p
  cases v with
  | none =>
    simp [degrades, attempt, bind, Run.bind, hv, hnone]
  | some s =>
    cases hr : (k (some s)).result with
    | error e => simp [degrades, attempt, bind, Run.bind, hv, hr, hh]
    | ok a =>
      simp only [degrades, attempt, bind, Run.bind, hv, hr]
      refine ⟨⟨a, rfl⟩, ?_⟩
      intro op h hfail
      rcases List.mem_append.mp h with h1 | h2
      · have := get_session_failing p op h1 hfail
        rw [hv] at this; cases this
      · obtain ⟨e, he⟩ := hk s op h2 hfail
        rw [hr] at he; cases he

theorem strict_readCover (p : Platform) (i : MediaProperties) (t : Stream) :
    Strict p (readCover p i t) := by
  unfold readCover
  refine strict_bind p _ _ (strict_call p _ _) (fun _ => ?_)
  refine strict_start_await p _ _ _ _ (fun stream => ?_)
  refine strict_bind p _ _ (strict_call p _ _) (fun input => ?_)
  refine strict_bind p _ _ (strict_call p _ _) (fun reader => ?_)
  refine strict_bind p _ _ (strict_call p _ _) (fun size1 => ?_)
  refine strict_bind p _ _ (strict_call p _ _) (fun size2 => ?_)
  refine strict_start_await p _ _ _ _ (fun loaded => ?_)
  intro op h hfail
  revert h
  simp only [emit, raise, bind, Run.bind, pure, Run.pure]
  split
  · simp
  · rename_i hc
    simp at hc
    simp
    rintro rfl
    simp [hc.1] at hfail

theorem get_session_degrades (p : Platform) : degrades p (get_session p) none :=
  ⟨get_session_ok p, get_session_failing p⟩

theorem title_degrades (p : Platform) :
    degrades p (Java_ru_snuffy_music_MusicController_getCurrentTrackTitle p) none := by
  unfold Java_ru_snuffy_music_MusicController_getCurrentTrackTitle
  refine entry_of_strict p _ _ none (fun s => ?_) rfl rfl
  refine strict_start_await p _ _ _ _ (fun a => ?_)
  split
  · exact strict_bind p _ _ (strict_call p _ _) (fun _ => strict_pure p _)
  · exact strict_bind p _ _ (strict_log p _) (fun _ => strict_pure p _)

theorem album_degrades (p : Platform) :
    degrades p (Java_ru_snuffy_music_MusicController_getCurrentTrackAlbum p) none := by
  unfold Java_ru_snuffy_music_MusicController_getCurrentTrackAlbum
  refine entry_of_strict p _ _ none (fun s => ?_) rfl rfl
  refine strict_start_await p _ _ _ _ (fun a => ?_)
  split
  · exact strict_bind p _ _ (strict_call p _ _) (fun _ => strict_pure p _)
  · exact strict_bind p _ _ (strict_log p _) (fun _ => strict_pure p _)

theorem artist_degrades (p : Platform) :
    degrades p (Java_ru_snuffy_music_MusicController_getCurrentTrackArtist p) none := by
  unfold Java_ru_snuffy_music_MusicController_getCurrentTrackArtist
  refine entry_of_strict p _ _ none (fun s => ?_) rfl rfl
  refine strict_start_await p _ _ _ _ (fun a => ?_)
  split
  · exact strict_bind p _ _ (strict_call p _ _) (fun _ => strict_pure p _)
  · exact strict_bind p _ _ (strict_log p _) (fun _ => strict_pure p _)

theorem cover_degrades (p : Platform) :
    degrades p (Java_ru_snuffy_music_MusicController_getCurrentTrackCoverBase64 p) none := by
  unfold Java_ru_snuffy_music_MusicController_getCurrentTrackCoverBase64
  refine entry_of_strict p _ _ none (fun s => ?_) rfl rfl
  refine strict_start_await p _ _ _ _ (fun a => ?_)
  split
  · refine strict_bind p _ _ (strict_call p _ _) (fun t => ?_)
    split
    · exact strict_readCover p _ _
    · exact strict_bind p _ _ (strict_log p _) (fun _ => strict_pure p _)
  · exact strict_bind p _ _ (strict_log p _) (fun _ => strict_pure p _)

theorem progress_degrades (p : Platform) :
    degrades p (Java_ru_snuffy_music_MusicController_getCurrentTrackProgress p) (-1) := by
  unfold Java_ru_snuffy_music_MusicController_getCurrentTrackProgress
  refine entry_of_strict p _ _ (-1) (fun s => ?_) rfl rfl
  refine strict_bind p _ _ (strict_call p _ _) (fun t => ?_)
  exact strict_bind p _ _ (strict_call p _ _) (fun _ => strict_pure p _)

theorem duration_degrades (p : Platform) :
    degrades p (Java_ru_snuffy_music_MusicController_getCurrentTrackDuration p) (-1) := by
  unfold Java_ru_snuffy_music_MusicController_getCurrentTrackDuration
  refine entry_of_strict p _ _ (-1) (fun s => ?_) rfl rfl
  refine strict_bind p _ _ (strict_call p _ _) (fun t => ?_)
  exact strict_bind p _ _ (strict_call p _ _) (fun _ => strict_pure p _)

theorem lastKnownPosition_degrades (p : Platform) :
    degrades p (Java_ru_snuffy_music_MusicController_getLastKnownPosition p) (-1) := by
  unfold Java_ru_snuffy_music_MusicController_getLastKnownPosition
  refine entry_of_strict p _ _ (-1) (fun s => ?_) rfl rfl
  refine strict_bind p _ _ (strict_call p _ _) (fun t => ?_)
  exact strict_bind p _ _ (strict_call p _ _) (fun _ => strict_pure p _)

theorem lastUpdatedTime_degrades (p : Platform) :
    degrades p (Java_ru_snuffy_music_MusicController_getLastUpdatedTime p) (-1) := by
  unfold Java_ru_snuffy_music_MusicController_getLastUpdatedTime
  refine entry_of_strict p _ _ (-1) (fun s => ?_) rfl rfl
  refine strict_bind p _ _ (strict_call p _ _) (fun t => ?_)
  exact strict_bind p _ _ (strict_call p _ _) (fun _ => strict_pure p _)

theorem isPlaying_degrades (p : Platform) :
    degrades p (Java_ru_snuffy_music_MusicController_isPlaying p) false := by
  unfold Java_ru_snuffy_music_MusicController_isPlaying
  refine entry_of_strict p _ _ false (fun s => ?_) rfl rfl
  refine strict_bind p _ _ (strict_call p _ _) (fun t => ?_)
  exact strict_bind p _ _ (strict_call p _ _) (fun _ => strict_pure p _)

theorem setPlaying_degrades (p : Platform) (play : Bool) :
    degrades p (Java_ru_snuffy_music_MusicController_setPlaying p play) () := by
  unfold Java_ru_snuffy_music_MusicController_setPlaying
  refine entry_of_strict p _ _ () (fun s => ?_) rfl rfl
  dsimp only
  split
  · exact strict_start_await p _ _ _ _ (fun _ => strict_pure p _)
  · exact strict_start_await p _ _ _ _ (fun _ => strict_pure p _)

theorem seekTo_degrades (p : Platform) (seconds : Int) :
    degrades p (Java_ru_snuffy_music_MusicController_seekTo p seconds) () := by
  unfold Java_ru_snuffy_music_MusicController_seekTo
  refine entry_of_strict p _ _ () (fun s => ?_) rfl rfl
  exact strict_start_await p _ _ _ _ (fun _ => strict_pure p _)

theorem nextTrack_degrades (p : Platform) :
    degrades p (Java_ru_snuffy_music_MusicController_nextTrack p) () := by
  unfold Java_ru_snuffy_music_MusicController_nextTrack
  refine entry_of_strict p _ _ () (fun s => ?_) rfl rfl
  exact strict_start_await p _ _ _ _ (fun _ => strict_pure p _)

theorem previousTrack_degrades (p : Platform) :
    degrades p (Java_ru_snuffy_music_MusicController_previousTrack p) () := by
  unfold Java_ru_snuffy_music_MusicController_previousTrack
  refine entry_of_strict p _ _ () (fun s => ?_) rfl rfl
  exact strict_start_await p _ _ _ _ (fun _ => strict_pure p _)

/-! ## Theorems: the entry points -/

/-- Claim C4 (no session): when `get_session` yields absence, every query returns
its sentinel (absent string, `-1`, `false`), every command returns, and no
entry point issues a play, pause, seek or skip command. -/
theorem absent_session_sentinels (p : Platform) (play : Bool) (seconds : Int)
    (h : (get_session p).result = .ok none) :
    quietly (Java_ru_snuffy_music_MusicController_getCurrentTrackTitle p) none ∧
    quietly (Java_ru_snuffy_music_MusicController_getCurrentTrackAlbum p) none ∧
    quietly (Java_ru_snuffy_music_MusicController_getCurrentTrackArtist p) none ∧
    quietly (Java_ru_snuffy_music_MusicController_getCurrentTrackCoverBase64 p) none ∧
    quietly (Java_ru_snuffy_music_MusicController_getCurrentTrackProgress p) (-1) ∧
    quietly (Java_ru_snuffy_music_MusicController_getCurrentTrackDuration p) (-1) ∧
    quietly (Java_ru_snuffy_music_MusicController_getLastKnownPosition p) (-1) ∧
    quietly (Java_ru_snuffy_music_MusicController_getLastUpdatedTime p) (-1) ∧
    quietly (Java_ru_snuffy_music_MusicController_isPlaying p) false ∧
    quietly (Java_ru_snuffy_music_MusicController_setPlaying p play) () ∧
    quietly (Java_ru_snuffy_music_MusicController_seekTo p seconds) () ∧
    quietly (Java_ru_snuffy_music_MusicController_nextTrack p) () ∧
    quietly (Java_ru_snuffy_music_MusicController_previousTrack p) () :=
  ⟨entry_absent p _ _ _ h rfl, entry_absent p _ _ _ h rfl, entry_absent p _ _ _ h rfl,
   entry_absent p _ _ _ h rfl, entry_absent p _ _ _ h rfl, entry_absent p _ _ _ h rfl,
   entry_absent p _ _ _ h rfl, entry_absent p _ _ _ h rfl, entry_absent p _ _ _ h rfl,
   entry_absent p _ _ _ h rfl, entry_absent p _ _ _ h rfl, entry_absent p _ _ _ h rfl,
   entry_absent p _ _ _ h rfl⟩

/-- Witness of claim C4: a platform without a session manager. -/
theorem absent_session_sentinels_witness :
    (get_session noManager).result = .ok none ∧
    quietly (Java_ru_snuffy_music_MusicController_getCurrentTrackTitle noManager) none ∧
    quietly (Java_ru_snuffy_music_MusicController_seekTo noManager 7) () :=
  ⟨by decide,
   (absent_session_sentinels noManager true 7 (by decide)).1,
   (absent_session_sentinels noManager true 7 (by decide)).2.2.2.2.2.2.2.2.2.2.1⟩

/-- Claim C5 (failures): whichever platform call fails, `get_session` turns the
failure into absence, and every entry point returns normally with its
sentinel (absent string, `-1`, `false`, nothing for commands); no exception
leaves an entry point on any platform. -/
theorem failures_become_sentinels (p : Platform) (play : Bool) (seconds : Int) :
    degrades p (get_session p) none ∧
    degrades p (Java_ru_snuffy_music_MusicController_getCurrentTrackTitle p) none ∧
    degrades p (Java_ru_snuffy_music_MusicController_getCurrentTrackAlbum p) none ∧
    degrades p (Java_ru_snuffy_music_MusicController_getCurrentTrackArtist p) none ∧
    degrades p (Java_ru_snuffy_music_MusicController_getCurrentTrackCoverBase64 p) none ∧
    degrades p (Java_ru_snuffy_music_MusicController_getCurrentTrackProgress p) (-1) ∧
    degrades p (Java_ru_snuffy_music_MusicController_getCurrentTrackDuration p) (-1) ∧
    degrades p (Java_ru_snuffy_music_MusicController_getLastKnownPosition p) (-1) ∧
    degrades p (Java_ru_snuffy_music_MusicController_getLastUpdatedTime p) (-1) ∧
    degrades p (Java_ru_snuffy_music_MusicController_isPlaying p) false ∧
    degrades p (Java_ru_snuffy_music_MusicController_setPlaying p play) () ∧
    degrades p (Java_ru_snuffy_music_MusicController_seekTo p seconds) () ∧
    degrades p (Java_ru_snuffy_music_MusicController_nextTrack p) () ∧
    degrades p (Java_ru_snuffy_music_MusicController_previousTrack p) () :=
  ⟨get_session_degrades p, title_degrades p, album_degrades p, artist_degrades p,
   cover_degrades p, progress_degrades p, duration_degrades p, lastKnownPosition_degrades p,
   lastUpdatedTime_degrades p, isPlaying_degrades p, setPlaying_degrades p play,
   seekTo_degrades p seconds, nextTrack_degrades p, previousTrack_degrades p⟩

/-- Witness of claim C5: the session-manager request ends in a status other
than `Completed` and `get_session` yields absence; the byte load of the
artwork fails and the cover query returns the absent string; the play command
throws and `setPlaying` returns. -/
theorem failures_become_sentinels_witness :
    (get_session (platformWith (onlyFault .RequestAsync .notCompleted)
        (sampleSession 0 (some sampleArt)))).result = .ok none ∧
    (Java_ru_snuffy_music_MusicController_getCurrentTrackCoverBase64
        (platformWith (onlyFault (.LoadAsync 5) .notCompleted)
          (sampleSession 0 (some sampleArt)))).result = .ok none ∧
    (Java_ru_snuffy_music_MusicController_setPlaying
        (platformWith (onlyFault .TryPlayAsync .throws)
          (sampleSession 0 (some sampleArt))) true).result = .ok () :=
  ⟨(failures_become_sentinels
      (platformWith (onlyFault .RequestAsync .notCompleted) (sampleSession 0 (some sampleArt)))
      true 0).1.2 .RequestAsync (by decide) (by decide),
   (failures_become_sentinels
      (platformWith (onlyFault (.LoadAsync 5) .notCompleted) (sampleSession 0 (some sampleArt)))
      true 0).2.2.2.2.1.2 (.LoadAsync 5) (by decide) (by decide),
   (failures_become_sentinels
      (platformWith (onlyFault .TryPlayAsync .throws) (sampleSession 0 (some sampleArt)))
      true 0).2.2.2.2.2.2.2.2.2.2.1.2 .TryPlayAsync (by decide) (by decide)⟩

/-- Claim C6 (playing state): with a session present and the playback read
succeeding, `isPlaying` returns true exactly when the status is `Playing`, and
false for each of `Closed`, `Opened`, `Changing`, `Stopped`, `Paused`. -/
theorem isPlaying_iff_playing (p : Platform) (s : Session)
    (hs : (get_session p).result = .ok (some s))
    (h1 : p.fails .GetPlaybackInfo = none) (h2 : p.fails .PlaybackStatus = none) :
    ((Java_ru_snuffy_music_MusicController_isPlaying p).result = .ok true
      ↔ s.playbackStatus = .Playing) ∧
    (s.playbackStatus ∈ [PlaybackStatus.Closed, .Opened, .Changing, .Stopped, .Paused] →
      (Java_ru_snuffy_music_MusicController_isPlaying p).result = .ok false) := by
  unfold Java_ru_snuffy_music_MusicController_isPlaying
  rw [(entry_present p _ _ s hs).1]
  simp only [attempt, call, emit, raise, bind, Run.bind, pure, Run.pure, h1, h2]
  cases s.playbackStatus <;> simp

/-- Witness of claim C6: the sample session is playing. -/
theorem isPlaying_iff_playing_witness :
    (Java_ru_snuffy_music_MusicController_isPlaying
        (platformWith noFault (sampleSession 0 none))).result = .ok true
      ↔ (sampleSession 0 none).playbackStatus = .Playing :=
  (isPlaying_iff_playing (platformWith noFault (sampleSession 0 none)) (sampleSession 0 none)
    (by decide) (by decide) (by decide)).1

theorem toInt32_tdiv (x : Int) (h0 : 0 ≤ x) (h1 : x < 21474836480000000) :
    toInt32 (Int.tdiv x 10000000) = x / 10000000 := by
  rw [Int.tdiv_eq_ediv h0 (by decide)]
  unfold toInt32
  omega

/-- Claim C7, as amended: with a session present and the timeline read succeeding,
for every tick count `x` with `0 ≤ x < 2^31 * 10^7` (the quotient fits a
`jint`) `getCurrentTrackProgress` and `getLastKnownPosition` return
`floor(x / 10^7)` for the position `x`, and `getCurrentTrackDuration` returns
it for the end time `x`; so the result is 0 below `10^7` ticks and 2 at
`25 * 10^6` ticks. -/
theorem seconds_of_ticks (p : Platform) (s : Session)
    (hs : (get_session p).result = .ok (some s))
    (ht : p.fails .GetTimelineProperties = none) :
    (p.fails .Position = none → 0 ≤ s.timeline.position →
      s.timeline.position < 21474836480000000 →
      (Java_ru_snuffy_music_MusicController_getCurrentTrackProgress p).result
        = .ok (s.timeline.position / 10000000) ∧
      (Java_ru_snuffy_music_MusicController_getLastKnownPosition p).result
        = .ok (s.timeline.position / 10000000) ∧
      (s.timeline.position < 10000000 →
        (Java_ru_snuffy_music_MusicController_getCurrentTrackProgress p).result = .ok 0) ∧
      (s.timeline.position = 25000000 →
        (Java_ru_snuffy_music_MusicController_getCurrentTrackProgress p).result = .ok 2)) ∧
    (p.fails .EndTime = none → 0 ≤ s.timeline.endTime →
      s.timeline.endTime < 21474836480000000 →
      (Java_ru_snuffy_music_MusicController_getCurrentTrackDuration p).result
        = .ok (s.timeline.endTime / 10000000)) := by
  constructor
  · intro hp h0 h1
    have e1 : (Java_ru_snuffy_music_MusicController_getCurrentTrackProgress p).result
        = .ok (s.timeline.position / 10000000) := by
      unfold Java_ru_snuffy_music_MusicController_getCurrentTrackProgress
      rw [(entry_present p _ _ s hs).1]
      simp only [attempt, call, emit, raise, bind, Run.bind, pure, Run.pure, ht, hp]
      rw [toInt32_tdiv _ h0 h1]
    have e2 : (Java_ru_snuffy_music_MusicController_getLastKnownPosition p).result
        = .ok (s.timeline.position / 10000000) := by
      unfold Java_ru_snuffy_music_MusicController_getLastKnownPosition
      rw [(entry_present p _ _ s hs).1]
      simp only [attempt, call, emit, raise, bind, Run.bind, pure, Run.pure, ht, hp]
      rw [toInt32_tdiv _ h0 h1]
    refine ⟨e1, e2, ?_, ?_⟩
    · intro hlt
      rw [e1]
      have : s.timeline.position / 10000000 = 0 := by omega
      rw [this]
    · intro heq
      rw [e1, heq]
      rfl
  · intro hp h0 h1
    unfold Java_ru_snuffy_music_MusicController_getCurrentTrackDuration
    rw [(entry_present p _ _ s hs).1]
    simp only [attempt, call, emit, raise, bind, Run.bind, pure, Run.pure, ht, hp]
    rw [toInt32_tdiv _ h0 h1]

/-- Witness of claim C7 as amended: a position of 2.5 seconds. -/
theorem seconds_of_ticks_witness :
    (Java_ru_snuffy_music_MusicController_getCurrentTrackProgress
        (platformWith noFault (sampleSession 25000000 none))).result = .ok 2 :=
  ((seconds_of_ticks (platformWith noFault (sampleSession 25000000 none))
      (sampleSession 25000000 none) (by decide) (by decide)).1
    (by decide) (by decide) (by decide)).2.2.2 (by decide)

/-- Counterexample to claim C7 as stated: the position `2^31 * 10^7` ticks is a
non-negative 64-bit count, its quotient by `10^7` is `2147483648`, and
`getCurrentTrackProgress` and `getLastKnownPosition` return `-2147483648`. -/
theorem seconds_of_ticks_counterexample :
    (get_session (platformWith noFault (sampleSession 21474836480000000 none))).result
      = .ok (some (sampleSession 21474836480000000 none)) ∧
    (0 : Int) ≤ (sampleSession 21474836480000000 none).timeline.position ∧
    (sampleSession 21474836480000000 none).timeline.position < 9223372036854775808 ∧
    (sampleSession 21474836480000000 none).timeline.position / 10000000 = 2147483648 ∧
    (Java_ru_snuffy_music_MusicController_getCurrentTrackProgress
        (platformWith noFault (sampleSession 21474836480000000 none))).result
      = .ok (-2147483648) ∧
    (Java_ru_snuffy_music_MusicController_getLastKnownPosition
        (platformWith noFault (sampleSession 21474836480000000 none))).result
      = .ok (-2147483648) ∧
    (Java_ru_snuffy_music_MusicController_getCurrentTrackProgress
        (platformWith noFault (sampleSession 21474836480000000 none))).result
      ≠ .ok ((sampleSession 21474836480000000 none).timeline.position / 10000000) := by
  decide

/-- Claim C8 (epoch conversion): with a session present and the timeline read
succeeding, for every 64-bit timestamp `t` at or after 116444736000000000
`getLastUpdatedTime` returns `floor((t - 116444736000000000) / 10000)`; the
subtraction stays within 64 bits; the offset itself gives 0. -/
theorem lastUpdatedTime_unix_ms (p : Platform) (s : Session)
    (hs : (get_session p).result = .ok (some s))
    (h1 : p.fails .GetTimelineProperties = none) (h2 : p.fails .LastUpdatedTime = none)
    (hlo : 116444736000000000 ≤ s.timeline.lastUpdatedTime)
    (hhi : s.timeline.lastUpdatedTime < 9223372036854775808) :
    (Java_ru_snuffy_music_MusicController_getLastUpdatedTime p).result
      = .ok ((s.timeline.lastUpdatedTime - 116444736000000000) / 10000) ∧
    toInt64 (s.timeline.lastUpdatedTime - 116444736000000000)
      = s.timeline.lastUpdatedTime - 116444736000000000 ∧
    (s.timeline.lastUpdatedTime = 116444736000000000 →
      (Java_ru_snuffy_music_MusicController_getLastUpdatedTime p).result = .ok 0) := by
  have hw : toInt64 (s.timeline.lastUpdatedTime - 116444736000000000)
      = s.timeline.lastUpdatedTime - 116444736000000000 := by
    unfold toInt64; omega
  have e : (Java_ru_snuffy_music_MusicController_getLastUpdatedTime p).result
      = .ok ((s.timeline.lastUpdatedTime - 116444736000000000) / 10000) := by
    unfold Java_ru_snuffy_music_MusicController_getLastUpdatedTime
    rw [(entry_present p _ _ s hs).1]
    simp only [attempt, call, emit, raise, bind, Run.bind, pure, Run.pure, h1, h2]
    rw [hw, Int.tdiv_eq_ediv (by omega) (by decide)]
    have : toInt64 ((s.timeline.lastUpdatedTime - 116444736000000000) / 10000)
        = (s.timeline.lastUpdatedTime - 116444736000000000) / 10000 := by
      unfold toInt64; omega
    rw [this]
  refine ⟨e, hw, ?_⟩
  intro heq
  rw [e, heq]
  rfl

/-- Witness of claim C8: the sample session was last updated at the Unix epoch. -/
theorem lastUpdatedTime_unix_ms_witness :
    (Java_ru_snuffy_music_MusicController_getLastUpdatedTime
        (platformWith noFault (sampleSession 0 none))).result = .ok 0 :=
  (lastUpdatedTime_unix_ms (platformWith noFault (sampleSession 0 none)) (sampleSession 0 none)
    (by decide) (by decide) (by decide) (by decide) (by decide)).2.2 (by decide)

theorem toInt64_seek (seconds : Int) (hlo : -2147483648 ≤ seconds) (hhi : seconds ≤ 2147483647) :
    toInt64 (toInt64 seconds * 10000000) = seconds * 10000000 := by
  have e : toInt64 seconds = seconds := by unfold toInt64; omega
  rw [e]; unfold toInt64; omega

/-- The commands of an asynchronous call that is awaited and whose result is
dropped, inside a `try` block whose handler only logs. -/
theorem commands_start_await (p : Platform) (op : Op) (v : Bool) (ctx msg : String) :
    commands (attempt (start p op v >>= fun o => await o ctx >>= fun _ => pure ())
      (log_debug msg)).trace = commands [Event.call op] := by
  cases hf : p.fails op with
  | none => simp [attempt, start, await, emit, bind, Run.bind, pure, Run.pure, hf]
  | some f =>
    cases f with
    | throws =>
      have e : (attempt (start p op v >>= fun o => await o ctx >>= fun _ => pure ())
          (log_debug msg)).trace
          = [Event.call op] ++ [Event.output msg, Event.output "\n"] := by
        simp [attempt, start, await, emit, raise, log_debug, bind, Run.bind, hf]
      rw [e, commands_append]
      simp [commands]
    | notCompleted =>
      have e : (attempt (start p op v >>= fun o => await o ctx >>= fun _ => pure ())
          (log_debug msg)).trace
          = [Event.call op] ++ [Event.output (ctx ++ ": " ++ "Async operation failed"),
              Event.output "\n", Event.output msg, Event.output "\n"] := by
        simp [attempt, start, await, emit, raise, log_debug, bind, Run.bind, pure, Run.pure, hf]
      rw [e, commands_append]
      simp [commands]

/-- Claim C9 (commands): with a session present, `setPlaying(true)` issues exactly
one command, play; `setPlaying(false)` exactly pause; `nextTrack` exactly
skip-next; `previousTrack` exactly skip-previous; and `seekTo(s)`, for every
32-bit signed `s`, exactly change-position with the argument `s * 10^7`, the
exact product. -/
theorem commands_issued (p : Platform) (s : Session) (seconds : Int)
    (hs : (get_session p).result = .ok (some s))
    (hlo : -2147483648 ≤ seconds) (hhi : seconds ≤ 2147483647) :
    commands (Java_ru_snuffy_music_MusicController_setPlaying p true).trace
      = [Op.TryPlayAsync] ∧
    commands (Java_ru_snuffy_music_MusicController_setPlaying p false).trace
      = [Op.TryPauseAsync] ∧
    commands (Java_ru_snuffy_music_MusicController_nextTrack p).trace
      = [Op.TrySkipNextAsync] ∧
    commands (Java_ru_snuffy_music_MusicController_previousTrack p).trace
      = [Op.TrySkipPreviousAsync] ∧
    commands (Java_ru_snuffy_music_MusicController_seekTo p seconds).trace
      = [Op.TryChangePlaybackPositionAsync (seconds * 10000000)] := by
  refine ⟨?_, ?_, ?_, ?_, ?_⟩
  · unfold Java_ru_snuffy_music_MusicController_setPlaying
    rw [(entry_present p _ _ s hs).2, commands_append, get_session_commands]
    exact commands_start_await p _ _ _ _
  · unfold Java_ru_snuffy_music_MusicController_setPlaying
    rw [(entry_present p _ _ s hs).2, commands_append, get_session_commands]
    exact commands_start_await p _ _ _ _
  · unfold Java_ru_snuffy_music_MusicController_nextTrack
    rw [(entry_present p _ _ s hs).2, commands_append, get_session_commands]
    exact commands_start_await p _ _ _ _
  · unfold Java_ru_snuffy_music_MusicController_previousTrack
    rw [(entry_present p _ _ s hs).2, commands_append, get_session_commands]
    exact commands_start_await p _ _ _ _
  · unfold Java_ru_snuffy_music_MusicController_seekTo
    rw [(entry_present p _ _ s hs).2, commands_append, get_session_commands]
    refine (List.nil_append _).trans ((commands_start_await p _ _ _ _).trans ?_)
    rw [toInt64_seek seconds hlo hhi]
    rfl

/-- Witness of claim C9: seeking to the smallest 32-bit value. -/
theorem commands_issued_witness :
    commands (Java_ru_snuffy_music_MusicController_seekTo
        (platformWith noFault (sampleSession 0 none)) (-2147483648)).trace
      = [Op.TryChangePlaybackPositionAsync (-2147483648 * 10000000)] :=
  (commands_issued (platformWith noFault (sampleSession 0 none)) (sampleSession 0 none)
    (-2147483648) (by decide) (by decide) (by decide)).2.2.2.2

/-- Claim C10 (absent snapshot): with a session present, if the media-properties
snapshot is absent the title, album, artist and cover queries return the
absent string normally; if the snapshot is present without a thumbnail the
cover query returns the absent string normally, and its run opens no stream,
reads nothing from one and does not invoke the codec. -/
theorem absent_snapshot_sentinels (p : Platform) (s : Session)
    (hs : (get_session p).result = .ok (some s)) :
    (s.properties = none →
      (Java_ru_snuffy_music_MusicController_getCurrentTrackTitle p).result = .ok none ∧
      (Java_ru_snuffy_music_MusicController_getCurrentTrackAlbum p).result = .ok none ∧
      (Java_ru_snuffy_music_MusicController_getCurrentTrackArtist p).result = .ok none ∧
      (Java_ru_snuffy_music_MusicController_getCurrentTrackCoverBase64 p).result = .ok none) ∧
    (∀ info, s.properties = some info → info.thumbnail = none →
      (Java_ru_snuffy_music_MusicController_getCurrentTrackCoverBase64 p).result = .ok none ∧
      ∀ e ∈ (Java_ru_snuffy_music_MusicController_getCurrentTrackCoverBase64 p).trace,
        touchesStream e = false) := by
  constructor
  · intro hn
    refine ⟨?_, ?_, ?_, ?_⟩
    · unfold Java_ru_snuffy_music_MusicController_getCurrentTrackTitle
      rw [(entry_present p _ _ s hs).1]
      cases hf : p.fails .TryGetMediaPropertiesAsync with
      | none =>
        simp [attempt, start, await, emit, log_debug, bind, Run.bind, pure, Run.pure, hf, hn]
      | some f =>
        cases f <;>
          simp [attempt, start, await, emit, raise, log_debug, bind, Run.bind, pure, Run.pure, hf]
    · unfold Java_ru_snuffy_music_MusicController_getCurrentTrackAlbum
      rw [(entry_present p _ _ s hs).1]
      cases hf : p.fails .TryGetMediaPropertiesAsync with
      | none =>
        simp [attempt, start, await, emit, log_debug, bind, Run.bind, pure, Run.pure, hf, hn]
      | some f =>
        cases f <;>
          simp [attempt, start, await, emit, raise, log_debug, bind, Run.bind, pure, Run.pure, hf]
    · unfold Java_ru_snuffy_music_MusicController_getCurrentTrackArtist
      rw [(entry_present p _ _ s hs).1]
      cases hf : p.fails .TryGetMediaPropertiesAsync with
      | none =>
        simp [attempt, start, await, emit, log_debug, bind, Run.bind, pure, Run.pure, hf, hn]
      | some f =>
        cases f <;>
          simp [attempt, start, await, emit, raise, log_debug, bind, Run.bind, pure, Run.pure, hf]
    · unfold Java_ru_snuffy_music_MusicController_getCurrentTrackCoverBase64
      rw [(entry_present p _ _ s hs).1]
      cases hf : p.fails .TryGetMediaPropertiesAsync with
      | none =>
        simp [attempt, start, await, emit, log_debug, bind, Run.bind, pure, Run.pure, hf, hn]
      | some f =>
        cases f <;>
          simp [attempt, start, await, emit, raise, log_debug, bind, Run.bind, pure, Run.pure, hf]
  · intro info hi hth
    unfold Java_ru_snuffy_music_MusicController_getCurrentTrackCoverBase64
    rw [(entry_present p _ _ s hs).1, (entry_present p _ _ s hs).2]
    refine ⟨?_, ?_⟩
    · cases hf : p.fails .TryGetMediaPropertiesAsync with
      | none =>
        cases hf2 : p.fails .Thumbnail <;>
          simp [attempt, start, await, call, emit, raise, log_debug, bind, Run.bind, pure,
            Run.pure, hf, hf2, hi, hth]
      | some f =>
        cases f <;>
          simp [attempt, start, await, call, emit, raise, log_debug, bind, Run.bind, pure,
            Run.pure, hf]
    · intro e he
      rcases List.mem_append.mp he with h | h
      · exact get_session_stream p e h
      · clear he
        revert e
        cases hf : p.fails .TryGetMediaPropertiesAsync with
        | none =>
          cases hf2 : p.fails .Thumbnail <;>
            simp [attempt, start, await, call, emit, raise, log_debug, bind, Run.bind, pure,
              Run.pure, hf, hf2, hi, hth, touchesStream]
        | some f =>
          cases f <;>
            simp [attempt, start, await, call, emit, raise, log_debug, bind, Run.bind, pure,
              Run.pure, hf, touchesStream]

/-- Witness of claim C10: a session without snapshot, and the sample session without thumbnail. -/
theorem absent_snapshot_sentinels_witness :
    (Java_ru_snuffy_music_MusicController_getCurrentTrackTitle
        (platformWith noFault bareSession)).result = .ok none ∧
    (Java_ru_snuffy_music_MusicController_getCurrentTrackCoverBase64
        (platformWith noFault (sampleSession 0 none))).result = .ok none :=
  ⟨((absent_snapshot_sentinels (platformWith noFault bareSession) bareSession
      (by decide)).1 (by decide)).1,
   ((absent_snapshot_sentinels (platformWith noFault (sampleSession 0 none))
      (sampleSession 0 none) (by decide)).2 ⟨"Title", "Album", "Artist", none⟩
      (by decide) (by decide)).1⟩

end MusicControl
